import Mathlib

/-!
# Kismet RTL433 phy: the `rtl433_empty_aggregator` combiner and the
# weather-station record layout (`phy_rtl433.h`)

The C++ `int64_t` is embedded as `Int` restricted by `isInt64`; arithmetic
that can leave the range (`avg += v`, `avg_c++`, `avg / avg_c`) is wrapped
back with `wrap64` (two-complement reduction modulo `2^64`).  Comparisons need no wrapping.
-/

/-- Range of the C++ type `int64_t`. -/
def isInt64 (x : Int) : Prop := -(2 ^ 63) ≤ x ∧ x < 2 ^ 63

instance (x : Int) : Decidable (isInt64 x) := by
  unfold isInt64; exact inferInstance

/-- Reduction of an integer modulo `2^64` into the `int64_t` range. -/
def wrap64 (x : Int) : Int := (x + 2 ^ 63) % 2 ^ 64 - 2 ^ 63

namespace rtl433_empty_aggregator

/-- Source `default_val()`: the default empty value, `(int64_t) -9999`. -/
def default_val : Int := -9999

/-- Source `name()`: the aggregator name. -/
def name : String := "rtl433_empty"

/-- Source `combine_element(a, b)`, branch for branch. -/
def combine_element (a b : Int) : Int :=
  if a < 0 ∧ b < 0 then
    if a < b then a else b
  else if a > 0 ∧ b > 0 then
    if a > b then a else b
  else if a = 0 then b
  else if b = 0 then a
  else if a < b then a
  else b

/-- The C++ quotient `a / b` on `int64_t`: rounds toward zero; a zero divisor
is undefined behaviour and is reported as `none`. -/
def int64_div (a b : Int) : Option Int :=
  if b = 0 then none else some (wrap64 (Int.tdiv a b))

/-- One pass of the loop body of `combine_vector` on the pair `(avg, avg_c)`:
an entry different from `default_val()` is added to `avg` and counted. -/
def combine_vector_step (st : Int × Int) (v : Int) : Int × Int :=
  if v ≠ default_val then (wrap64 (st.1 + v), wrap64 (st.2 + 1)) else st

/-- Source `combine_vector(e)`: the vector `e` is given by the `int64_t` values that
`GetTrackerValue<int64_t>` reads from its entries, in order. -/
def combine_vector (e : List Int) : Option Int :=
  let st := e.foldl combine_vector_step (0, 0)
  if st.2 = 0 then some default_val else int64_div st.1 st.2

end rtl433_empty_aggregator

/-- The entries of a vector that are not the absent sentinel. -/
def present (e : List Int) : List Int :=
  e.filter (fun v => decide (v ≠ rtl433_empty_aggregator.default_val))


/-! ## Weather-station component

The host tracker framework (`tracker_component`, `kis_tracked_rrd`,
`SharedTrackerElement`) is not part of the header.  Its calls are recorded as a
trace; what the host decides is taken as a parameter: `field_id` (the id the
registry returns for a field name) and `get_map_value` (sub-element lookup in
an existing element of type `E`). -/

/-- Element type tags handed to `RegisterField`. -/
inductive TrackerType where
  | TrackerString
  | TrackerInt32
  | TrackerDouble
  | TrackerVector
  deriving DecidableEq, Repr

/-- A `kis_tracked_rrd<Aggregator>` object as far as the header fixes it: the
`name()` of the `Aggregator` template argument, the id given to the
constructor, and the existing element given to the three-argument
constructor (`none` for the two-argument one). -/
structure kis_tracked_rrd (E : Type) where
  aggregator : String
  id : Int
  existing : Option E

/-- One call of `RegisterField(name, type, desc, &member)` or of
`RegisterComplexField(name, builder, desc)`. -/
inductive Registration (E : Type) where
  | field (name : String) (type : TrackerType) (desc : String) (member : String)
  | complex (name : String) (builder : kis_tracked_rrd E) (desc : String)

/-- Members of `rtl433_tracked_weatherstation` that concern the six series
(the series members are shared pointers, `none` when null), with the trace of
registrations and of `add_map` calls made by this class. -/
structure rtl433_tracked_weatherstation (E : Type) where
  registered : List (Registration E)
  map : List (Option (kis_tracked_rrd E))
  wind_dir_rrd_id : Int
  wind_dir_rrd : Option (kis_tracked_rrd E)
  wind_speed_rrd_id : Int
  wind_speed_rrd : Option (kis_tracked_rrd E)
  wind_gust_rrd_id : Int
  wind_gust_rrd : Option (kis_tracked_rrd E)
  rain_rrd_id : Int
  rain_rrd : Option (kis_tracked_rrd E)
  uv_index_rrd_id : Int
  uv_index_rrd : Option (kis_tracked_rrd E)
  lux_rrd_id : Int
  lux_rrd : Option (kis_tracked_rrd E)

namespace rtl433_tracked_weatherstation

/-- The `new kis_tracked_rrd<rtl433_empty_aggregator>(globalreg, id)` expression. -/
def new_rrd {E : Type} (id : Int) : kis_tracked_rrd E :=
  ⟨rtl433_empty_aggregator.name, id, none⟩

/-- The `new kis_tracked_rrd<rtl433_empty_aggregator>(globalreg, id, e)` expression. -/
def new_rrd_from {E : Type} (id : Int) (e : E) : kis_tracked_rrd E :=
  ⟨rtl433_empty_aggregator.name, id, some e⟩

/-- Host call `RegisterField(name, type, desc, &member)`, recorded. -/
def RegisterField {E : Type} (c : rtl433_tracked_weatherstation E)
    (name : String) (type : TrackerType) (desc : String) (member : String) :
    rtl433_tracked_weatherstation E :=
  { c with registered := c.registered ++ [Registration.field name type desc member] }

/-- Host call `RegisterComplexField(name, builder, desc)`, recorded; the id it
returns is the one the host registry gives to `name`. -/
def RegisterComplexField {E : Type} (field_id : String → Int)
    (c : rtl433_tracked_weatherstation E)
    (name : String) (builder : kis_tracked_rrd E) (desc : String) :
    Int × rtl433_tracked_weatherstation E :=
  (field_id name,
   { c with registered := c.registered ++ [Registration.complex name builder desc] })

/-- Host call `add_map(series)`, recorded; the argument is a shared pointer,
`none` when null. -/
def add_map {E : Type} (c : rtl433_tracked_weatherstation E)
    (r : Option (kis_tracked_rrd E)) : rtl433_tracked_weatherstation E :=
  { c with map := c.map ++ [r] }

/-- Assignment `wind_dir_rrd_id = id`. -/
def set_wind_dir_rrd_id {E : Type} (c : rtl433_tracked_weatherstation E) (id : Int) :
    rtl433_tracked_weatherstation E :=
  { c with wind_dir_rrd_id := id }

/-- Call `wind_dir_rrd.reset(r)`. -/
def reset_wind_dir_rrd {E : Type} (c : rtl433_tracked_weatherstation E)
    (r : kis_tracked_rrd E) : rtl433_tracked_weatherstation E :=
  { c with wind_dir_rrd := some r }

/-- Assignment `wind_speed_rrd_id = id`. -/
def set_wind_speed_rrd_id {E : Type} (c : rtl433_tracked_weatherstation E) (id : Int) :
    rtl433_tracked_weatherstation E :=
  { c with wind_speed_rrd_id := id }

/-- Call `wind_speed_rrd.reset(r)`. -/
def reset_wind_speed_rrd {E : Type} (c : rtl433_tracked_weatherstation E)
    (r : kis_tracked_rrd E) : rtl433_tracked_weatherstation E :=
  { c with wind_speed_rrd := some r }

/-- Assignment `wind_gust_rrd_id = id`. -/
def set_wind_gust_rrd_id {E : Type} (c : rtl433_tracked_weatherstation E) (id : Int) :
    rtl433_tracked_weatherstation E :=
  { c with wind_gust_rrd_id := id }

/-- Call `wind_gust_rrd.reset(r)`. -/
def reset_wind_gust_rrd {E : Type} (c : rtl433_tracked_weatherstation E)
    (r : kis_tracked_rrd E) : rtl433_tracked_weatherstation E :=
  { c with wind_gust_rrd := some r }

/-- Assignment `rain_rrd_id = id`. -/
def set_rain_rrd_id {E : Type} (c : rtl433_tracked_weatherstation E) (id : Int) :
    rtl433_tracked_weatherstation E :=
  { c with rain_rrd_id := id }

/-- Call `rain_rrd.reset(r)`. -/
def reset_rain_rrd {E : Type} (c : rtl433_tracked_weatherstation E)
    (r : kis_tracked_rrd E) : rtl433_tracked_weatherstation E :=
  { c with rain_rrd := some r }

/-- Assignment `uv_index_rrd_id = id`. -/
def set_uv_index_rrd_id {E : Type} (c : rtl433_tracked_weatherstation E) (id : Int) :
    rtl433_tracked_weatherstation E :=
  { c with uv_index_rrd_id := id }

/-- Call `uv_index_rrd.reset(r)`. -/
def reset_uv_index_rrd {E : Type} (c : rtl433_tracked_weatherstation E)
    (r : kis_tracked_rrd E) : rtl433_tracked_weatherstation E :=
  { c with uv_index_rrd := some r }

/-- Assignment `lux_rrd_id = id`. -/
def set_lux_rrd_id {E : Type} (c : rtl433_tracked_weatherstation E) (id : Int) :
    rtl433_tracked_weatherstation E :=
  { c with lux_rrd_id := id }

/-- Call `lux_rrd.reset(r)`. -/
def reset_lux_rrd {E : Type} (c : rtl433_tracked_weatherstation E)
    (r : kis_tracked_rrd E) : rtl433_tracked_weatherstation E :=
  { c with lux_rrd := some r }

/-- Object state when the constructor body starts: nothing registered, nothing
mapped, series pointers null; the id members are not yet assigned (`0` here). -/
def init {E : Type} : rtl433_tracked_weatherstation E :=
  { registered := [], map := [],
    wind_dir_rrd_id := 0, wind_dir_rrd := none,
    wind_speed_rrd_id := 0, wind_speed_rrd := none,
    wind_gust_rrd_id := 0, wind_gust_rrd := none,
    rain_rrd_id := 0, rain_rrd := none,
    uv_index_rrd_id := 0, uv_index_rrd := none,
    lux_rrd_id := 0, lux_rrd := none }

/-- Source `register_fields()`, statement by statement. -/
def register_fields {E : Type} (field_id : String → Int)
    (c : rtl433_tracked_weatherstation E) : rtl433_tracked_weatherstation E :=
  let c := c.RegisterField "rtl433.device.wind_dir" TrackerType.TrackerInt32
    "Wind direction in degrees" "wind_dir"
  let rrd_builder : kis_tracked_rrd E := new_rrd 0
  let r := RegisterComplexField field_id c "rtl433.device.wind_dir_rrd" rrd_builder
    "Wind direction RRD"
  let c := r.2.set_wind_dir_rrd_id r.1
  let c := c.RegisterField "rtl433.device.weatherstation.wind_speed"
    TrackerType.TrackerInt32 "Wind speed in Kph" "wind_speed"
  let rrd_builder : kis_tracked_rrd E := new_rrd 0
  let r := RegisterComplexField field_id c "rtl433.device.wind_speed_rrd" rrd_builder
    "Wind speed RRD"
  let c := r.2.set_wind_speed_rrd_id r.1
  let c := c.RegisterField "rtl433.device.wind_gust" TrackerType.TrackerInt32
    "Wind gust in Kph" "wind_gust"
  let rrd_builder : kis_tracked_rrd E := new_rrd 0
  let r := RegisterComplexField field_id c "rtl433.device.wind_gust_rrd" rrd_builder
    "Wind gust RRD"
  let c := r.2.set_wind_gust_rrd_id r.1
  let c := c.RegisterField "rtl433.device.rain" TrackerType.TrackerInt32
    "Measured rain" "rain"
  let rrd_builder : kis_tracked_rrd E := new_rrd 0
  let r := RegisterComplexField field_id c "rtl433.device.rain_rrd" rrd_builder
    "Rain RRD"
  let c := r.2.set_rain_rrd_id r.1
  let c := c.RegisterField "rtl433.device.uv_index" TrackerType.TrackerInt32
    "UV index" "uv_index"
  let rrd_builder : kis_tracked_rrd E := new_rrd 0
  let r := RegisterComplexField field_id c "rtl433.device.uv_index_rrd" rrd_builder
    "UV index RRD"
  let c := r.2.set_uv_index_rrd_id r.1
  let c := c.RegisterField "rtl433.device.lux" TrackerType.TrackerInt32
    "Lux" "lux"
  let rrd_builder : kis_tracked_rrd E := new_rrd 0
  let r := RegisterComplexField field_id c "rtl433.device.lux_rrd" rrd_builder
    "Lux RRD"
  r.2.set_lux_rrd_id r.1

/-- Source `reserve_fields(e)`, statement by statement; `e` is `none` for the
null pointer.  The leading `tracker_component::reserve_fields(e)` belongs to
the host and does not touch the series members, so it leaves this state as
it is. -/
def reserve_fields {E : Type} (get_map_value : E → Int → E)
    (c : rtl433_tracked_weatherstation E) (e : Option E) :
    rtl433_tracked_weatherstation E :=
  match e with
  | some e =>
    let c := c.reset_wind_dir_rrd
      (new_rrd_from c.wind_dir_rrd_id (get_map_value e c.wind_dir_rrd_id))
    let c := c.add_map c.wind_dir_rrd
    let c := c.reset_wind_speed_rrd
      (new_rrd_from c.wind_speed_rrd_id (get_map_value e c.wind_speed_rrd_id))
    let c := c.add_map c.wind_speed_rrd
    let c := c.reset_wind_gust_rrd
      (new_rrd_from c.wind_gust_rrd_id (get_map_value e c.wind_gust_rrd_id))
    let c := c.add_map c.wind_gust_rrd
    let c := c.reset_rain_rrd
      (new_rrd_from c.rain_rrd_id (get_map_value e c.rain_rrd_id))
    let c := c.add_map c.rain_rrd
    let c := c.reset_uv_index_rrd
      (new_rrd_from c.uv_index_rrd_id (get_map_value e c.uv_index_rrd_id))
    let c := c.add_map c.uv_index_rrd
    let c := c.reset_lux_rrd
      (new_rrd_from c.lux_rrd_id (get_map_value e c.lux_rrd_id))
    c.add_map c.lux_rrd
  | none =>
    let c := c.reset_wind_dir_rrd (new_rrd c.wind_dir_rrd_id)
    let c := c.add_map c.wind_dir_rrd
    let c := c.reset_wind_speed_rrd (new_rrd c.wind_speed_rrd_id)
    let c := c.add_map c.wind_speed_rrd
    let c := c.reset_wind_gust_rrd (new_rrd c.wind_gust_rrd_id)
    let c := c.add_map c.wind_gust_rrd
    let c := c.reset_rain_rrd (new_rrd c.rain_rrd_id)
    let c := c.add_map c.rain_rrd
    let c := c.reset_uv_index_rrd (new_rrd c.uv_index_rrd_id)
    let c := c.add_map c.uv_index_rrd
    let c := c.reset_lux_rrd (new_rrd c.lux_rrd_id)
    c.add_map c.lux_rrd

/-- Both constructors: `register_fields()` then `reserve_fields(e)`, with
`e = none` for the two-argument constructor. -/
def construct {E : Type} (field_id : String → Int) (get_map_value : E → Int → E)
    (e : Option E) : rtl433_tracked_weatherstation E :=
  reserve_fields get_map_value (register_fields field_id init) e

/-- Names of the series fields registered, in registration order. -/
def series_names {E : Type} (c : rtl433_tracked_weatherstation E) : List String :=
  c.registered.filterMap fun r =>
    match r with
    | Registration.complex n _ _ => some n
    | Registration.field _ _ _ _ => none

/-- Aggregator names of the builders of the series fields registered. -/
def series_aggregators {E : Type} (c : rtl433_tracked_weatherstation E) : List String :=
  c.registered.filterMap fun r =>
    match r with
    | Registration.complex _ b _ => some b.aggregator
    | Registration.field _ _ _ _ => none

/-- Members bound by the scalar registrations, in registration order. -/
def scalar_members {E : Type} (c : rtl433_tracked_weatherstation E) : List String :=
  c.registered.filterMap fun r =>
    match r with
    | Registration.complex _ _ _ => none
    | Registration.field _ _ _ m => some m

end rtl433_tracked_weatherstation

/-- The six numeric attributes of the weather station (the `__Proxy` members). -/
def weatherstation_attributes : List String :=
  ["wind_dir", "wind_speed", "wind_gust", "rain", "uv_index", "lux"]

/-- Series field name belonging to an attribute. -/
def rrd_field_name (attr : String) : String :=
  "rtl433.device." ++ attr ++ "_rrd"

open rtl433_empty_aggregator

/-! ## Helper facts -/

theorem isInt64_default_val : isInt64 default_val := by
  unfold isInt64 default_val; omega

/-- The combiner always returns one of its two arguments, so it stays inside
`int64_t` and the `Int` embedding is exact. -/
theorem combine_element_mem (a b : Int) :
    combine_element a b = a ∨ combine_element a b = b := by
  unfold combine_element
  split_ifs <;> simp

/-- Branch-by-branch description of `combine_element` in linear arithmetic:
which argument is returned, and under which sign conditions. -/
theorem combine_element_cases (a b : Int) :
    (a < 0 ∧ b < 0 ∧ a < b ∧ combine_element a b = a) ∨
    (a < 0 ∧ b < 0 ∧ b ≤ a ∧ combine_element a b = b) ∨
    (0 < a ∧ 0 < b ∧ b < a ∧ combine_element a b = a) ∨
    (0 < a ∧ 0 < b ∧ a ≤ b ∧ combine_element a b = b) ∨
    (a = 0 ∧ combine_element a b = b) ∨
    (b = 0 ∧ combine_element a b = a) ∨
    (a < 0 ∧ 0 < b ∧ combine_element a b = a) ∨
    (0 < a ∧ b < 0 ∧ combine_element a b = b) := by
  unfold combine_element
  split_ifs <;> omega

theorem combine_element_isInt64 (a b : Int) (ha : isInt64 a) (hb : isInt64 b) :
    isInt64 (combine_element a b) := by
  rcases combine_element_mem a b with h | h <;> rw [h] <;> assumption

/-! ## Claims about `combine_element`

Every statement below quantifies over all of `Int`; the `int64_t` samples of
the source are the integers satisfying `isInt64`, and `combine_element` only
compares its arguments, so nothing is lost by the wider quantification. -/

/-- C1: for samples `a, b` that are both strictly positive the combiner
returns `max a b`; for samples that are both strictly negative it returns
`min a b`. -/
theorem C1_combine_same_sign (a b : Int) :
    (0 < a ∧ 0 < b → combine_element a b = max a b) ∧
    (a < 0 ∧ b < 0 → combine_element a b = min a b) := by
  unfold combine_element
  constructor
  · rintro ⟨h1, h2⟩
    split_ifs <;> omega
  · rintro ⟨h1, h2⟩
    split_ifs <;> omega

/-- Instances of C1: the pairs (3, 7), (7, 3) and the negative pairs (-3, -7), (-9999, -5). -/
theorem C1_combine_same_sign_witness :
    (combine_element 3 7 = max 3 7 ∧ combine_element 7 3 = max 7 3) ∧
    (combine_element (-3) (-7) = min (-3) (-7) ∧
      combine_element (-9999) (-5) = min (-9999) (-5)) :=
  ⟨⟨(C1_combine_same_sign 3 7).1 ⟨by decide, by decide⟩,
    (C1_combine_same_sign 7 3).1 ⟨by decide, by decide⟩⟩,
   ⟨(C1_combine_same_sign (-3) (-7)).2 ⟨by decide, by decide⟩,
    (C1_combine_same_sign (-9999) (-5)).2 ⟨by decide, by decide⟩⟩⟩

/-- C2 (evaluation of the code at the failing input): a present positive
sample `5` combined with the absent sentinel `default_val = -9999` gives the
sentinel on either side, not `5`; the same happens for the present sample `0`
and for the present negative sample `-5`. -/
theorem C2_sentinel_absorbs_present_sample :
    combine_element 5 default_val = default_val ∧
    combine_element default_val 5 = default_val ∧
    combine_element 0 default_val = default_val ∧
    combine_element default_val (-5) = default_val := by
  decide

/-- C3 (as stated, refuted): `0` and `5` are present samples, neither both
strictly positive nor both strictly negative, yet the combiner returns `5`,
which is not `min 0 5 = 0`. -/
theorem C3_counterexample :
    (combine_element 0 5 = 5 ∧ min (0 : Int) 5 = 0) ∧
    ¬ (∀ a b : Int, isInt64 a → isInt64 b → a ≠ default_val → b ≠ default_val →
        ¬ (0 < a ∧ 0 < b) → ¬ (a < 0 ∧ b < 0) →
        combine_element a b = min a b) := by
  refine ⟨by decide, ?_⟩
  intro h
  have h05 := h 0 5 (by decide) (by decide) (by decide) (by decide)
    (by decide) (by decide)
  revert h05
  decide

/-- C3 (amended): for present samples `a, b` that are neither both strictly
positive nor both strictly negative, the combiner returns `min a b`, except
when one of them is zero and the other strictly positive, where it returns the
positive one (`max a b`). -/
theorem C3_combine_mixed (a b : Int)
    (_ha : a ≠ default_val) (_hb : b ≠ default_val)
    (hpos : ¬ (0 < a ∧ 0 < b)) (hneg : ¬ (a < 0 ∧ b < 0)) :
    combine_element a b =
      if (a = 0 ∧ 0 < b) ∨ (b = 0 ∧ 0 < a) then max a b else min a b := by
  unfold combine_element
  split_ifs <;> omega

/-- Instances of the amended C3: the mixed pair (10, -3) and the zero pair (0, 5). -/
theorem C3_combine_mixed_witness :
    combine_element 10 (-3) = min 10 (-3) ∧ combine_element 0 5 = max 0 5 :=
  ⟨C3_combine_mixed 10 (-3) (by decide) (by decide) (by decide) (by decide),
   C3_combine_mixed 0 5 (by decide) (by decide) (by decide) (by decide)⟩

/-- C7 (as stated, refuted): `10` and `-3` are present samples and the combiner
returns `-3`, whose magnitude `3` is not `max |10| |-3| = 10`. -/
theorem C7_counterexample :
    (combine_element 10 (-3) = -3 ∧ max |(10 : Int)| |(-3 : Int)| = 10) ∧
    ¬ (∀ a b : Int, isInt64 a → isInt64 b → a ≠ default_val → b ≠ default_val →
        |combine_element a b| = max |a| |b|) := by
  refine ⟨by decide, ?_⟩
  intro h
  have h1 := h 10 (-3) (by decide) (by decide) (by decide) (by decide)
  revert h1
  decide

/-- C7 (amended): for present samples `a, b` that are not of opposite strict
sign (both `≥ 0` or both `≤ 0`) the result has the greater magnitude,
`|combine_element a b| = max |a| |b|`; for samples of opposite strict sign the
result is the negative one, `min a b`, whatever the magnitudes. -/
theorem C7_combine_extreme (a b : Int)
    (_ha : a ≠ default_val) (_hb : b ≠ default_val) :
    ((0 ≤ a ∧ 0 ≤ b) ∨ (a ≤ 0 ∧ b ≤ 0) →
        |combine_element a b| = max |a| |b|) ∧
    ((a < 0 ∧ 0 < b) ∨ (0 < a ∧ b < 0) →
        combine_element a b = min a b) := by
  unfold combine_element
  constructor
  · intro h
    split_ifs <;> rcases abs_cases a with ⟨ea, _⟩ | ⟨ea, _⟩ <;>
      rcases abs_cases b with ⟨eb, _⟩ | ⟨eb, _⟩ <;> rw [ea, eb] <;> omega
  · intro h
    split_ifs <;> omega

/-- Instances of the amended C7: the same-sign pair (-3, -10) and the mixed pair (10, -3). -/
theorem C7_combine_extreme_witness :
    |combine_element (-3) (-10)| = max |(-3 : Int)| |(-10 : Int)| ∧
    combine_element 10 (-3) = min 10 (-3) :=
  ⟨(C7_combine_extreme (-3) (-10) (by decide) (by decide)).1
      (Or.inr ⟨by decide, by decide⟩),
   (C7_combine_extreme 10 (-3) (by decide) (by decide)).2
      (Or.inr ⟨by decide, by decide⟩)⟩

/-- C8: zero is a two-sided identity of the combiner: for every sample `a`
(positive, negative, zero or the sentinel) `combine_element 0 a = a` and
`combine_element a 0 = a`. -/
theorem C8_zero_identity (a : Int) :
    combine_element 0 a = a ∧ combine_element a 0 = a := by
  unfold combine_element
  constructor <;> split_ifs <;> omega

/-- C9: the combiner is associative:
`combine_element (combine_element a b) c = combine_element a (combine_element b c)`
for all samples `a, b, c`. -/
theorem C9_combine_assoc (a b c : Int) :
    combine_element (combine_element a b) c =
      combine_element a (combine_element b c) := by
  have hab := combine_element_cases a b
  have hbc := combine_element_cases b c
  have hl := combine_element_cases (combine_element a b) c
  have hr := combine_element_cases a (combine_element b c)
  generalize combine_element (combine_element a b) c = l at hl ⊢
  generalize combine_element a (combine_element b c) = r at hr ⊢
  generalize combine_element a b = p at hab hl
  generalize combine_element b c = q at hbc hr
  omega

/-! ## `combine_vector` -/

theorem wrap64_of_isInt64 (x : Int) (h : isInt64 x) : wrap64 x = x := by
  unfold isInt64 at h
  unfold wrap64
  omega

theorem wrap64_add_left (x y : Int) : wrap64 (wrap64 x + y) = wrap64 (x + y) := by
  unfold wrap64
  omega

/-- The loop computes the wrapped sum and the wrapped count of the present
entries, on top of whatever the accumulators held before. -/
theorem combine_vector_loop (e : List Int) (s c : Int) :
    e.foldl combine_vector_step (wrap64 s, wrap64 c) =
      (wrap64 (s + (present e).sum), wrap64 (c + (present e).length)) := by
  induction e generalizing s c with
  | nil => simp [present]
  | cons v t ih =>
    by_cases hv : v = default_val
    · have hp : present (v :: t) = present t := by simp [present, hv]
      rw [hp, List.foldl_cons]
      have hs : combine_vector_step (wrap64 s, wrap64 c) v = (wrap64 s, wrap64 c) := by
        simp [combine_vector_step, hv]
      rw [hs, ih]
    · have hp : present (v :: t) = v :: present t := by simp [present, hv]
      rw [hp, List.foldl_cons]
      have hs : combine_vector_step (wrap64 s, wrap64 c) v =
          (wrap64 (s + v), wrap64 (c + 1)) := by
        simp [combine_vector_step, hv, wrap64_add_left]
      rw [hs, ih]
      simp only [List.sum_cons, List.length_cons, Nat.cast_add, Nat.cast_one]
      congr 2 <;> omega

theorem combine_vector_loop_zero (e : List Int) :
    e.foldl combine_vector_step (0, 0) =
      (wrap64 (present e).sum, wrap64 (present e).length) := by
  have h := combine_vector_loop e 0 0
  have h0 : wrap64 0 = 0 := by decide
  simpa [h0] using h

/-- A truncated quotient by a positive count stays between the dividend and
zero, hence inside `int64_t` when the dividend is. -/
theorem isInt64_tdiv (s n : Int) (hs : isInt64 s) (hn : 0 < n) :
    isInt64 (Int.tdiv s n) := by
  unfold isInt64 at *
  rcases le_or_lt 0 s with h | h
  · have h1 : 0 ≤ Int.tdiv s n := Int.tdiv_nonneg h (le_of_lt hn)
    have h2 : Int.tdiv s n ≤ s := by
      rw [Int.tdiv_eq_ediv h (le_of_lt hn)]
      exact Int.ediv_le_self n h
    omega
  · have hneg : 0 ≤ -s := by omega
    have h1 : 0 ≤ Int.tdiv (-s) n := Int.tdiv_nonneg hneg (le_of_lt hn)
    have h2 : Int.tdiv (-s) n ≤ -s := by
      rw [Int.tdiv_eq_ediv hneg (le_of_lt hn)]
      exact Int.ediv_le_self n hneg
    rw [Int.neg_tdiv] at h1 h2
    omega

theorem present_ne_nil (e : List Int) (hex : ∃ v ∈ e, v ≠ default_val) :
    0 < (present e).length := by
  obtain ⟨v, hv, hne⟩ := hex
  have hmem : v ∈ present e := by simp [present, hv, hne]
  exact List.length_pos_of_mem hmem

theorem present_eq_nil (e : List Int) (h : ∀ v ∈ e, v = default_val) :
    present e = [] := by
  simp only [present, List.filter_eq_nil_iff]
  intro v hv
  simp [h v hv]

/-- C4: for a sequence with at least one entry different from the absent
sentinel, whose present entries sum to a value inside `int64_t` (and, as for
every vector held in memory, number fewer than `2^63`), `combine_vector`
returns the sum of the present entries divided by their number, the quotient
truncated toward zero (`Int.tdiv`); absent entries enter neither the sum nor
the count. -/
theorem C4_combine_vector_average (e : List Int)
    (hex : ∃ v ∈ e, v ≠ default_val)
    (hcount : ((present e).length : Int) < 2 ^ 63)
    (hsum : isInt64 (present e).sum) :
    combine_vector e =
      some (Int.tdiv (present e).sum ((present e).length : Int)) := by
  have hpos : 0 < (present e).length := present_ne_nil e hex
  have hposZ : (0 : Int) < ((present e).length : Int) := by exact_mod_cast hpos
  have hc : wrap64 ((present e).length : Int) = ((present e).length : Int) :=
    wrap64_of_isInt64 _ ⟨by omega, hcount⟩
  have hs : wrap64 (present e).sum = (present e).sum := wrap64_of_isInt64 _ hsum
  have hq := wrap64_of_isInt64 _ (isInt64_tdiv _ _ hsum hposZ)
  have hne : ((present e).length : Int) ≠ 0 := by omega
  simp only [combine_vector, combine_vector_loop_zero, hc, hs, int64_div, hne,
    if_false, hq]

/-- Instances of C4: `[5, absent, 15]` averages to 10, and `[-7, absent, 2]` to -2 (the quotient -5 / 2 truncated toward zero). -/
theorem C4_combine_vector_average_witness :
    combine_vector [5, -9999, 15] = some 10 ∧
    combine_vector [-7, -9999, 2] = some (-2) :=
  ⟨(C4_combine_vector_average [5, -9999, 15] ⟨5, by simp, by decide⟩
      (by decide) (by decide)).trans (by decide),
   (C4_combine_vector_average [-7, -9999, 2] ⟨2, by simp, by decide⟩
      (by decide) (by decide)).trans (by decide)⟩

/-- C5: for a sequence all of whose entries are the absent sentinel (the empty
sequence included) `combine_vector` returns the sentinel `-9999`; and on no
sequence at all does it reach the division with a zero count (the result is
never the undefined quotient `none`). -/
theorem C5_combine_vector_all_absent (e : List Int)
    (h : ∀ v ∈ e, v = default_val) :
    combine_vector e = some (-9999) ∧
    ∀ w : List Int, combine_vector w ≠ none := by
  constructor
  · have hp := present_eq_nil e h
    have h0 : wrap64 0 = 0 := by decide
    simp only [combine_vector, combine_vector_loop_zero, hp, List.sum_nil,
      List.length_nil, Nat.cast_zero, h0, if_true, default_val]
  · intro w
    unfold combine_vector int64_div
    simp only
    split_ifs <;> simp

/-- Instances of C5: the empty sequence and a sequence of three absent entries. -/
theorem C5_combine_vector_all_absent_witness :
    (combine_vector [] = some (-9999) ∧ ∀ w : List Int, combine_vector w ≠ none) ∧
    (combine_vector [-9999, -9999, -9999] = some (-9999) ∧
      ∀ w : List Int, combine_vector w ≠ none) :=
  ⟨C5_combine_vector_all_absent [] (by simp),
   C5_combine_vector_all_absent [-9999, -9999, -9999] (by simp [default_val])⟩

/-! ## Weather-station series -/

/-- C6: on both construction paths (`e` null, or an existing element) the
weather-station state has one series per numeric attribute: `register_fields`
registers six series fields with pairwise distinct names, one for each of
wind_dir, wind_speed, wind_gust, rain, uv_index and lux, every builder on the
`rtl433_empty` combiner; `reserve_fields` sets all six series members
(none stays null) and adds exactly these six to the map, each on the
`rtl433_empty` combiner, each under the id registered for its own attribute
and, when rebuilt, over the sub-element of `e` at that id. -/
theorem C6_weatherstation_series (E : Type) (field_id : String → Int)
    (get_map_value : E → Int → E) (e : Option E) :
    (rtl433_tracked_weatherstation.construct field_id get_map_value e).scalar_members
      = weatherstation_attributes ∧
    (rtl433_tracked_weatherstation.construct field_id get_map_value e).series_names
      = weatherstation_attributes.map rrd_field_name ∧
    (rtl433_tracked_weatherstation.construct field_id get_map_value e).series_names.Nodup ∧
    (rtl433_tracked_weatherstation.construct field_id get_map_value e).series_names.length
      = 6 ∧
    (∀ a ∈ (rtl433_tracked_weatherstation.construct field_id get_map_value
        e).series_aggregators, a = rtl433_empty_aggregator.name) ∧
    (rtl433_tracked_weatherstation.construct field_id get_map_value e).map =
      [(rtl433_tracked_weatherstation.construct field_id get_map_value e).wind_dir_rrd,
       (rtl433_tracked_weatherstation.construct field_id get_map_value e).wind_speed_rrd,
       (rtl433_tracked_weatherstation.construct field_id get_map_value e).wind_gust_rrd,
       (rtl433_tracked_weatherstation.construct field_id get_map_value e).rain_rrd,
       (rtl433_tracked_weatherstation.construct field_id get_map_value e).uv_index_rrd,
       (rtl433_tracked_weatherstation.construct field_id get_map_value e).lux_rrd] ∧
    (rtl433_tracked_weatherstation.construct field_id get_map_value e).map =
      (weatherstation_attributes.map rrd_field_name).map (fun n =>
        some ⟨rtl433_empty_aggregator.name, field_id n,
          e.map (fun el => get_map_value el (field_id n))⟩) := by
  have hn : ∀ e : Option E,
      (rtl433_tracked_weatherstation.construct field_id get_map_value e).series_names =
        weatherstation_attributes.map rrd_field_name := by
    intro e
    cases e <;> rfl
  have ha : ∀ e : Option E,
      (rtl433_tracked_weatherstation.construct field_id get_map_value e).series_aggregators =
        List.replicate 6 rtl433_empty_aggregator.name := by
    intro e
    cases e <;> rfl
  have hnodup : (weatherstation_attributes.map rrd_field_name).Nodup := by decide
  have hlen : (weatherstation_attributes.map rrd_field_name).length = 6 := by decide
  rw [hn e, ha e]
  refine ⟨?_, rfl, hnodup, hlen, ?_, ?_, ?_⟩
  · cases e <;> rfl
  · intro a h
    exact List.eq_of_mem_replicate h
  · cases e <;> rfl
  · cases e <;> rfl
